import Mathlib

/-!
Verification of the cursor-stats notification and aggregation logic.

The definitions below are a shallow embedding of the TypeScript source:
the notifications module (checkAndNotifySpending, checkAndNotifyUsage,
module-level notified-threshold sets and the re-entrancy flag), the
monthly-invoice aggregation core of fetchMonthData in services/api.ts,
and the billing-period computation of fetchCursorStats.  JS numbers are
modelled as rationals, JS Set objects as Finset, optional values as
Option, and external calls that can throw (currency conversion, message
dialogs, command dispatch) as Except-valued oracle fields threaded in as
parameters.
-/

namespace CursorStats

/-- Usage axis discriminator: the string union type of UsageInfo.type
in the source ("premium" or "usage-based"). -/
inductive UsageType where
  | premium
  | usageBased
deriving DecidableEq, Repr

/-- Embedding of the UsageInfo record passed to checkAndNotifyUsage.
Optional JS number fields become Option over the rationals. -/
structure UsageInfo where
  percentage : ℚ
  type : UsageType
  limit : Option ℚ
  premiumPercentage : Option ℚ
deriving DecidableEq, Repr

/-- Module-level mutable state of the notifications module: the three
notified-threshold sets and the shared re-entrancy flag. -/
structure NotifState where
  notifiedPremiumThresholds : Finset ℚ
  notifiedUsageBasedThresholds : Finset ℚ
  notifiedSpendingThresholds : Finset ℤ
  isNotificationInProgress : Bool
deriving DecidableEq

/-- Configuration values read from the cursorStats workspace
configuration by the two checks. -/
structure Config where
  spendingAlertThreshold : ℚ
  enableAlerts : Bool
  usageAlertThresholds : List ℚ
deriving DecidableEq, Repr

/-- Buttons of the spending information dialog, plus the
dismissed-without-choice outcome. -/
inductive SpendChoice where
  | manageLimit
  | dismiss
  | noChoice
deriving DecidableEq, Repr

/-- Buttons of the usage warning dialog, plus the
dismissed-without-choice outcome. -/
inductive UsageChoice where
  | viewSettings
  | manageLimit
  | enableUsageBased
  | dismiss
  | noChoice
deriving DecidableEq, Repr

/-- Results of the awaited external calls made inside the try block of
checkAndNotifySpending; an error value means the call threw. -/
structure SpendingExternals where
  convertTotalSpent : Except Unit Unit
  convertNextThreshold : Except Unit Unit
  showInformationMessage : Except Unit SpendChoice
  executeSetLimit : Except Unit Unit

/-- Results of the awaited external calls made inside the try block of
checkAndNotifyUsage.  The openSettings dispatch path catches all of its
own failures internally and touches no tracked state, so it is not
represented. -/
structure UsageExternals where
  showWarningMessage : Except Unit UsageChoice
  executeSetLimit : Except Unit Unit

/-- Observable outcome of one call to checkAndNotifySpending: the new
module state, the notified spending multiple if the information message
was shown, and whether the call ended by an exception escaping the try
block. -/
structure SpendingResult where
  state : NotifState
  fired : Option ℤ
  threw : Bool
deriving DecidableEq

/-- Observable outcome of one call to checkAndNotifyUsage: the new
module state, the threshold for which the warning message was shown,
and whether the call ended by an exception escaping the try block. -/
structure UsageResult where
  state : NotifState
  fired : Option ℚ
  threw : Bool
deriving DecidableEq

/-- Insertion step of the descending insertion sort used to model
Array.prototype.sort with comparator (a, b) => b - a. -/
def insertDesc (x : ℚ) : List ℚ → List ℚ
  | [] => [x]
  | y :: ys => if y ≤ x then x :: y :: ys else y :: insertDesc x ys

/-- Descending sort of the configured threshold list, modelling
sort((a, b) => b - a) in checkAndNotifyUsage. -/
def sortDesc : List ℚ → List ℚ
  | [] => []
  | x :: xs => insertDesc x (sortDesc xs)

/-- Truthiness of an optional JS number: undefined and 0 are falsy.
NaN does not arise in this exact-arithmetic model. -/
def jsTruthy : Option ℚ → Bool
  | none => false
  | some q => decide (q ≠ 0)

/-- Boolean view of a possibly-throwing external call. -/
def throws : Except Unit Unit → Bool
  | Except.error _ => true
  | Except.ok _ => false

/-- Embedding of checkAndNotifySpending.  The body runs inside
try/finally: the re-entrancy flag is raised on entry to the try block
and lowered again at every exit, including the exception paths, so the
returned state always carries the lowered flag whenever the guards at
the top were passed. -/
def checkAndNotifySpending (cfg : Config) (ext : SpendingExternals) (totalSpent : ℚ)
    (st : NotifState) : SpendingResult :=
  if st.isNotificationInProgress then ⟨st, none, false⟩
  else if cfg.spendingAlertThreshold ≤ 0 then ⟨st, none, false⟩
  else
    let currentThresholdMultiple : ℤ := Rat.floor (totalSpent / cfg.spendingAlertThreshold)
    let nextNotificationAmount : ℚ := (currentThresholdMultiple + 1) * cfg.spendingAlertThreshold
    if totalSpent ≥ nextNotificationAmount ∧
        currentThresholdMultiple + 1 ∉ st.notifiedSpendingThresholds then
      match ext.convertTotalSpent, ext.convertNextThreshold with
      | Except.ok _, Except.ok _ =>
        match ext.showInformationMessage with
        | Except.ok choice =>
          if choice = SpendChoice.manageLimit then
            match ext.executeSetLimit with
            | Except.ok _ =>
              ⟨{ st with
                  notifiedSpendingThresholds :=
                    insert (currentThresholdMultiple + 1) st.notifiedSpendingThresholds,
                  isNotificationInProgress := false },
               some (currentThresholdMultiple + 1), false⟩
            | Except.error _ =>
              ⟨{ st with isNotificationInProgress := false },
               some (currentThresholdMultiple + 1), true⟩
          else
            ⟨{ st with
                notifiedSpendingThresholds :=
                  insert (currentThresholdMultiple + 1) st.notifiedSpendingThresholds,
                isNotificationInProgress := false },
             some (currentThresholdMultiple + 1), false⟩
        | Except.error _ => ⟨{ st with isNotificationInProgress := false }, none, true⟩
      | _, _ => ⟨{ st with isNotificationInProgress := false }, none, true⟩
    else
      ⟨{ st with isNotificationInProgress := false }, none, false⟩

/-- Notified set of the axis selected by UsageInfo.type, modelling the
relevantThresholds alias in checkAndNotifyUsage. -/
def NotifState.relevant (st : NotifState) : UsageType → Finset ℚ
  | UsageType.premium => st.notifiedPremiumThresholds
  | UsageType.usageBased => st.notifiedUsageBasedThresholds

/-- Write-back of the notified set of the selected axis, with the
re-entrancy flag lowered by the finally clause. -/
def NotifState.setRelevant (st : NotifState) : UsageType → Finset ℚ → NotifState
  | UsageType.premium, s =>
      { st with notifiedPremiumThresholds := s, isNotificationInProgress := false }
  | UsageType.usageBased, s =>
      { st with notifiedUsageBasedThresholds := s, isNotificationInProgress := false }

/-- Embedding of checkAndNotifyUsage.  The suppression guard keeps the
JS truthiness test: premiumPercentage must be present and nonzero for
the skip to apply.  Marking adds every threshold below or equal to the
fired one, and the clearing loop then deletes every notified threshold
strictly above the current percentage; both run inside the try block
whose finally clause lowers the re-entrancy flag on every exit. -/
def checkAndNotifyUsage (cfg : Config) (ext : UsageExternals) (usageInfo : UsageInfo)
    (st : NotifState) : UsageResult :=
  if st.isNotificationInProgress then ⟨st, none, false⟩
  else if cfg.enableAlerts = false then ⟨st, none, false⟩
  else
    let thresholds := sortDesc cfg.usageAlertThresholds
    let percentage := usageInfo.percentage
    if usageInfo.type = UsageType.usageBased ∧ jsTruthy usageInfo.premiumPercentage = true ∧
        usageInfo.premiumPercentage.getD 0 < 100 then
      ⟨{ st with isNotificationInProgress := false }, none, false⟩
    else
      let relevantThresholds := st.relevant usageInfo.type
      match thresholds.find? (fun t => percentage ≥ t) with
      | some highestExceededThreshold =>
        if highestExceededThreshold ∉ relevantThresholds then
          match ext.showWarningMessage with
          | Except.error _ => ⟨{ st with isNotificationInProgress := false }, none, true⟩
          | Except.ok choice =>
            if (choice = UsageChoice.manageLimit ∨ choice = UsageChoice.enableUsageBased) ∧
                throws ext.executeSetLimit = true then
              ⟨{ st with isNotificationInProgress := false },
               some highestExceededThreshold, true⟩
            else
              let marked := relevantThresholds ∪
                (thresholds.filter (fun t => t ≤ highestExceededThreshold)).toFinset
              let cleared := marked.filter (fun t => t ≤ percentage)
              ⟨st.setRelevant usageInfo.type cleared, some highestExceededThreshold, false⟩
        else
          let cleared := relevantThresholds.filter (fun t => t ≤ percentage)
          ⟨st.setRelevant usageInfo.type cleared, none, false⟩
      | none =>
        let cleared := relevantThresholds.filter (fun t => t ≤ percentage)
        ⟨st.setRelevant usageInfo.type cleared, none, false⟩

/-- Sequential driver feeding a list of cumulative spend values to
checkAndNotifySpending, collecting the fired spending multiples in
order. -/
def runSpending (cfg : Config) (ext : SpendingExternals) :
    List ℚ → NotifState → NotifState × List ℤ
  | [], st => (st, [])
  | t :: ts, st =>
    let r := checkAndNotifySpending cfg ext t st
    let rest := runSpending cfg ext ts r.state
    (rest.1, r.fired.toList ++ rest.2)

/-- Default configuration values used by the source: spending step 1,
alerts enabled, premium thresholds 10/30/50/75/90/100. -/
def defaultConfig : Config := ⟨1, true, [10, 30, 50, 75, 90, 100]⟩

/-- Oracle in which every external call succeeds and the user dismisses
each dialog without choosing an action. -/
def okUsageExternals : UsageExternals := ⟨Except.ok UsageChoice.noChoice, Except.ok ()⟩

/-- Oracle in which every external call of the spending check succeeds
and the dialog is dismissed without a choice. -/
def okSpendingExternals : SpendingExternals :=
  ⟨Except.ok (), Except.ok (), Except.ok SpendChoice.noChoice, Except.ok ()⟩

/-- Fresh module state: empty notified sets, flag lowered. -/
def initialState : NotifState := ⟨∅, ∅, ∅, false⟩


/-! Embedding of the monthly-invoice aggregation core of fetchMonthData
in services/api.ts.  The HTTP transport is outside the model: the
function below maps the decoded response payload to the returned value.
String operations of the source (String.prototype.includes, the regexes
matching a leading integer and the text after "call(s) to " up to a
comma, toFixed(2), padStart) are implemented over the character lists
of Lean strings. -/

/-- Check that the first list is a prefix of the second. -/
def listStartsWith : List Char → List Char → Bool
  | [], _ => true
  | _ :: _, [] => false
  | p :: ps, c :: cs => p = c && listStartsWith ps cs

/-- Check that the first list occurs as a contiguous sublist of the
second, modelling String.prototype.includes. -/
def listContainsSub (needle : List Char) : List Char → Bool
  | [] => listStartsWith needle []
  | c :: cs => listStartsWith needle (c :: cs) || listContainsSub needle cs

/-- String.prototype.includes on hay and needle. -/
def strContains (hay needle : String) : Bool := listContainsSub needle.data hay.data

/-- Longest run of decimal digits at the start of a character list. -/
def leadingDigits : List Char → List Char
  | [] => []
  | c :: cs => if c.isDigit then c :: leadingDigits cs else []

/-- Numeric value of a list of decimal digits, most significant first. -/
def digitsToNat (ds : List Char) : ℕ :=
  ds.foldl (fun n c => 10 * n + (c.toNat - 48)) 0

/-- Parse of the leading-integer regex match on a description followed
by parseInt: none when the description does not start with a digit. -/
def parseLeadingNat (s : String) : Option ℕ :=
  let ds := leadingDigits s.data
  if ds.isEmpty then none else some (digitsToNat ds)

/-- Drop an expected literal from the front of a list, or fail. -/
def dropLit : List Char → List Char → Option (List Char)
  | [], l => some l
  | _ :: _, [] => none
  | p :: ps, c :: cs => if p = c then dropLit ps cs else none

/-- Attempt to match the pattern "call", optional "s", " to ", then a
nonempty run of non-comma characters, at the head of the list, and
return the captured run. -/
def matchCallToHere (l : List Char) : Option (List Char) :=
  match dropLit ("call".data) l with
  | none => none
  | some r1 =>
    let after :=
      match dropLit ("s to ".data) r1 with
      | some r2 => some r2
      | none => dropLit (" to ".data) r1
    match after with
    | none => none
    | some r =>
      let cap := r.takeWhile (fun c => c ≠ ',')
      if cap.isEmpty then none else some cap

/-- Leftmost match of the model-name regex: the text following
"call(s) to " up to the next comma. -/
def captureAfterCallTo : List Char → Option (List Char)
  | [] => none
  | c :: cs =>
    match matchCallToHere (c :: cs) with
    | some r => some r
    | none => captureAfterCallTo cs

/-- Number.prototype.toFixed(2), modelled for exact rational inputs:
round the magnitude of q to whole cents half away from zero and print
sign, integer dollars, a dot and two digits.  Every amount formatted in
the theorems below is an exact multiple of a cent, so the rounding mode
is never exercised. -/
def toFixed2 (q : ℚ) : String :=
  let sign := if q < 0 then "-" else ""
  let n := (Rat.floor (|q| * 100 + 1 / 2)).toNat
  sign ++ Nat.repr (n / 100) ++ "." ++
    (if n % 100 < 10 then "0" ++ Nat.repr (n % 100) else Nat.repr (n % 100))

/-- String.prototype.padStart with the zero character. -/
def padStartZero (s : String) (w : ℕ) : String :=
  if w ≤ s.length then s else String.mk (List.replicate (w - s.length) '0') ++ s

/-- One row of the decoded invoice payload: a description and the cents
amount, absent when the item carries no cost field. -/
structure InvoiceItem where
  description : String
  cents : Option ℚ
deriving DecidableEq, Repr

/-- Composer record of a usage event, carrying the model identity and
the MAX-mode flag. -/
structure ComposerInfo where
  modelIntent : String
  maxMode : Bool
deriving DecidableEq, Repr

/-- Details record of a usage event; either composer field may be
absent. -/
structure EventDetails where
  toolCallComposer : Option ComposerInfo
  composer : Option ComposerInfo
deriving DecidableEq, Repr

/-- One usage event of the secondary event stream. -/
structure UsageEvent where
  priceCents : ℚ
  details : Option EventDetails
deriving DecidableEq, Repr

/-- Decoded monthly-invoice payload; items and usageEvents may each be
absent from the response. -/
structure MonthPayload where
  items : Option (List InvoiceItem)
  usageEvents : Option (List UsageEvent)
deriving DecidableEq, Repr

/-- Emitted display line: the calculation label, the formatted total
and the originating description. -/
structure UsageItem where
  calculation : String
  totalDollars : String
  description : String
deriving DecidableEq, Repr

/-- Return value of fetchMonthData. -/
structure MonthData where
  items : List UsageItem
  hasUnpaidMidMonthInvoice : Bool
  midMonthPayment : ℚ
deriving DecidableEq, Repr

/-- JS short-circuit choice e.details?.toolCallComposer ||
e.details?.composer. -/
def eventComposer (e : UsageEvent) : Option ComposerInfo :=
  match e.details with
  | none => none
  | some d =>
    match d.toolCallComposer with
    | some c => some c
    | none => d.composer

/-- MAX-mode cross-reference: filter the events whose composer model
matches the description model name and whose per-request price is
within 0.01 of the per-request cost of the item, then ask whether any
of them carries the maxMode flag. -/
def hasMaxMode (events : Option (List UsageEvent)) (modelName : String)
    (cents : ℚ) (count : ℕ) : Bool :=
  match events with
  | none => false
  | some evs =>
    let matching := evs.filter (fun e =>
      match eventComposer e with
      | some comp => comp.modelIntent = modelName && |e.priceCents - cents / count| < 1 / 100
      | none => false)
    matching.any (fun e =>
      match eventComposer e with
      | some comp => comp.maxMode
      | none => false)

/-- First pass of fetchMonthData: the maximum leading-integer request
count over the items that carry a cents field and are not mid-month
payment items, starting from 0. -/
def maxRequestCount (items : List InvoiceItem) : ℕ :=
  items.foldl (fun acc item =>
    if item.cents.isNone then acc
    else if strContains item.description "Mid-month usage paid" then acc
    else
      match parseLeadingNat item.description with
      | some n => max acc n
      | none => acc) 0

/-- Common zero-padding width: the digit count of the maximum request
count found in the first pass. -/
def paddingWidth (items : List InvoiceItem) : ℕ := (Nat.repr (maxRequestCount items)).length

/-- Second-pass body of fetchMonthData for one invoice item, threading
the emitted lines and the running mid-month payment total. -/
def processItem (events : Option (List UsageEvent)) (w : ℕ)
    (acc : List UsageItem × ℚ) (item : InvoiceItem) : List UsageItem × ℚ :=
  match item.cents with
  | none => acc
  | some cents =>
    if strContains item.description "Mid-month usage paid" then
      let midMonthPayment := acc.2 + |cents| / 100
      (acc.1 ++ [⟨"Mid-month payment: $" ++ toFixed2 midMonthPayment,
                  "-$" ++ toFixed2 midMonthPayment, item.description⟩],
       midMonthPayment)
    else
      let dollars := cents / 100
      let requestMatch := parseLeadingNat item.description
      if strContains item.description "extra fast premium requests" then
        let requestCount := requestMatch.getD 0
        let costPerRequest := if 0 < requestCount then cents / requestCount else 0
        (acc.1 ++ [⟨padStartZero (Nat.repr requestCount) w ++ "*$" ++
                      toFixed2 (costPerRequest / 100) ++ " (Fast Requests)",
                    "$" ++ toFixed2 dollars, item.description⟩],
         acc.2)
      else
        let modelNameFromDesc := (captureAfterCallTo item.description.data).map String.mk
        let count := requestMatch.getD 1
        let costPerRequestStr := toFixed2 (if 0 < count then dollars / count else dollars)
        let displayStringPart :=
          match modelNameFromDesc with
          | some nm =>
            " " ++ nm ++ (if hasMaxMode events nm cents count then " (MAX)" else "")
          | none => " (Requests)"
        (acc.1 ++ [⟨padStartZero (Nat.repr count) w ++ "*$" ++ costPerRequestStr ++
                      displayStringPart,
                    "$" ++ toFixed2 dollars, item.description⟩],
         acc.2)

/-- Aggregation core of fetchMonthData: on a present items array, one
first pass for the padding width and one second pass emitting the
display lines and accumulating the mid-month payment total; on an
absent items array, no lines and a zero total.  The
hasUnpaidMidMonthInvoice field is the constant false of the source. -/
def fetchMonthData (payload : MonthPayload) : MonthData :=
  match payload.items with
  | none => ⟨[], false, 0⟩
  | some items =>
    let w := paddingWidth items
    let r := items.foldl (processItem payload.usageEvents w) ([], 0)
    ⟨r.1, false, r.2⟩

/-- Unpaid-amount computation of the tooltip fragment in
createMarkdownTooltip: after the fragment has parsed the total cost and
the cumulative mid-month payment back out of the rendered lines, the
displayed unpaid amount is their plain difference, with no clamping at
zero. -/
def tooltipUnpaidAmount (totalCost midMonthPayment : ℚ) : ℚ := totalCost - midMonthPayment

/-- Fixed billing boundary day of fetchCursorStats. -/
def usageBasedBillingDay : ℤ := 3

/-- Current and previous usage-based billing periods. -/
structure BillingPeriods where
  currentMonth : ℤ
  currentYear : ℤ
  lastMonth : ℤ
  lastYear : ℤ
deriving DecidableEq, Repr

/-- Billing-period computation of fetchCursorStats: subtract one month
when the day of month is strictly before the boundary day, decrementing
the year when the subtraction wraps to December, then derive the
previous period from the current one with the same wrap rule. -/
def computeBillingPeriods (day month year : ℤ) : BillingPeriods :=
  let cur :=
    if day < usageBasedBillingDay then
      let m := if month = 1 then 12 else month - 1
      (m, if m = 12 then year - 1 else year)
    else (month, year)
  let lastMonth := if cur.1 = 1 then 12 else cur.1 - 1
  let lastYear := if cur.1 = 1 then cur.2 - 1 else cur.2
  ⟨cur.1, cur.2, lastMonth, lastYear⟩


/-- Sequence of the absolute dollar amounts of the costed mid-month
payment items of a payload, in order. -/
def midMonthAmounts (items : List InvoiceItem) : List ℚ :=
  items.filterMap (fun item =>
    match item.cents with
    | some c =>
      if strContains item.description "Mid-month usage paid" then some (|c| / 100) else none
    | none => none)

/-- Running cumulative totals of a list of amounts on top of a starting
total. -/
def runningTotals (m : ℚ) : List ℚ → List ℚ
  | [] => []
  | x :: xs => (m + x) :: runningTotals (m + x) xs

/-- Emitted lines whose originating description carries the mid-month
marker. -/
def isMidMonthLine (u : UsageItem) : Bool :=
  strContains u.description "Mid-month usage paid"

/-- Leading-integer request counts found among the costed non-mid-month
items of a payload, in order. -/
def emittedRequestCounts (items : List InvoiceItem) : List ℕ :=
  items.filterMap (fun item =>
    match item.cents with
    | some _ =>
      if strContains item.description "Mid-month usage paid" then none
      else parseLeadingNat item.description
    | none => none)

/-- C6 counterexample payload: two mid-month payment items in one
pass. -/
def c6Payload : MonthPayload :=
  ⟨some [⟨"Mid-month usage paid: first", some (-3000)⟩,
         ⟨"Mid-month usage paid: second", some (-1000)⟩], none⟩

/-- C7 scenario payload: fast-request items with counts 7, 42 and
630. -/
def c7Payload : MonthPayload :=
  ⟨some [⟨"7 extra fast premium requests", some 700⟩,
         ⟨"42 extra fast premium requests", some 4200⟩,
         ⟨"630 extra fast premium requests", some 63000⟩], none⟩

/-- C8 witness payload. -/
def c8Payload : MonthPayload := ⟨some [⟨"7 extra fast premium requests", some 700⟩], none⟩

/-- Premium usage input at a given percentage, as used by the C5
scenario. -/
def premiumInfo (p : ℚ) : UsageInfo := ⟨p, UsageType.premium, none, none⟩

/-- Oracle in which every external call of the spending check throws. -/
def throwingSpendingExternals : SpendingExternals :=
  ⟨Except.error (), Except.error (), Except.error (), Except.error ()⟩

/-- Oracle in which every external call of the usage check throws. -/
def throwingUsageExternals : UsageExternals := ⟨Except.error (), Except.error ()⟩

/-- Module state with the re-entrancy flag raised. -/
def busyState : NotifState := ⟨∅, ∅, ∅, true⟩

/-! Supporting lemmas. -/

/-- Batteries floor agrees with the Mathlib floor on the rationals. -/
theorem ratFloor_eq (q : ℚ) : Rat.floor q = ⌊q⌋ := by
  rw [Rat.floor_def', ← Rat.floor_def]

/-- Strict upper bound of the spending check: the next notification
amount computed from a spend always lies strictly above that spend when
the step is positive. -/
theorem lt_next_boundary (t s : ℚ) (hs : 0 < s) :
    t < (((Rat.floor (t / s) : ℤ) : ℚ) + 1) * s := by
  have h1 : t / s < ((Rat.floor (t / s) : ℤ) : ℚ) + 1 := by
    rw [ratFloor_eq]
    exact Int.lt_floor_add_one (t / s)
  have h2 := mul_lt_mul_of_pos_right h1 hs
  rw [div_mul_cancel₀ _ (ne_of_gt hs)] at h2
  exact h2

/-- The spending check never fires and never changes the notified
spending set, on every input. -/
theorem checkAndNotifySpending_no_fire (cfg : Config) (ext : SpendingExternals)
    (totalSpent : ℚ) (st : NotifState) :
    (checkAndNotifySpending cfg ext totalSpent st).fired = none ∧
    (checkAndNotifySpending cfg ext totalSpent st).state.notifiedSpendingThresholds =
      st.notifiedSpendingThresholds := by
  unfold checkAndNotifySpending
  dsimp only
  split_ifs with h1 h2 h3
  · exact ⟨rfl, rfl⟩
  · exact ⟨rfl, rfl⟩
  · exact absurd h3.1 (not_le.mpr (lt_next_boundary totalSpent _ (not_le.mp h2)))
  · exact ⟨rfl, rfl⟩

/-- The driver collects no fired multiples on any spend sequence. -/
theorem runSpending_fired_nil (cfg : Config) (ext : SpendingExternals) :
    ∀ (spends : List ℚ) (st : NotifState), (runSpending cfg ext spends st).2 = []
  | [], _ => rfl
  | t :: ts, st => by
    simp [runSpending, (checkAndNotifySpending_no_fire cfg ext t st).1,
      runSpending_fired_nil cfg ext ts]

/-- Reading back the axis that was just written. -/
theorem relevant_setRelevant (st : NotifState) (ty : UsageType) (s : Finset ℚ) :
    (st.setRelevant ty s).relevant ty = s := by
  cases ty <;> rfl

/-- Writing an axis set always lowers the re-entrancy flag. -/
theorem setRelevant_flag (st : NotifState) (ty : UsageType) (s : Finset ℚ) :
    (st.setRelevant ty s).isNotificationInProgress = false := by
  cases ty <;> rfl

/-- Unfolding of checkAndNotifyUsage past the three guards, for a call
that is not re-entered, has alerts enabled and is not suppressed. -/
theorem checkAndNotifyUsage_eq_body (cfg : Config) (ext : UsageExternals)
    (usageInfo : UsageInfo) (st : NotifState)
    (hbusy : st.isNotificationInProgress = false)
    (halerts : cfg.enableAlerts = true)
    (hsup : ¬ (usageInfo.type = UsageType.usageBased ∧
        jsTruthy usageInfo.premiumPercentage = true ∧
        usageInfo.premiumPercentage.getD 0 < 100)) :
    checkAndNotifyUsage cfg ext usageInfo st =
      (match (sortDesc cfg.usageAlertThresholds).find?
          (fun t => usageInfo.percentage ≥ t) with
       | some h =>
         if h ∉ st.relevant usageInfo.type then
           match ext.showWarningMessage with
           | Except.error _ => ⟨{ st with isNotificationInProgress := false }, none, true⟩
           | Except.ok choice =>
             if (choice = UsageChoice.manageLimit ∨ choice = UsageChoice.enableUsageBased) ∧
                 throws ext.executeSetLimit = true then
               ⟨{ st with isNotificationInProgress := false }, some h, true⟩
             else
               ⟨st.setRelevant usageInfo.type
                  ((st.relevant usageInfo.type ∪
                      ((sortDesc cfg.usageAlertThresholds).filter (fun t => t ≤ h)).toFinset).filter
                    (fun t => t ≤ usageInfo.percentage)),
                some h, false⟩
         else
           ⟨st.setRelevant usageInfo.type
              ((st.relevant usageInfo.type).filter (fun t => t ≤ usageInfo.percentage)),
            none, false⟩
       | none =>
         ⟨st.setRelevant usageInfo.type
            ((st.relevant usageInfo.type).filter (fun t => t ≤ usageInfo.percentage)),
          none, false⟩) := by
  unfold checkAndNotifyUsage
  dsimp only
  rw [if_neg (by simp [hbusy]), if_neg (by simp [halerts]), if_neg hsup]

/-- Suppressed path of checkAndNotifyUsage: early return out of the try
block, with the flag lowered by the finally clause and nothing else
changed. -/
theorem checkAndNotifyUsage_suppressed_eq (cfg : Config) (ext : UsageExternals)
    (usageInfo : UsageInfo) (st : NotifState)
    (hbusy : st.isNotificationInProgress = false)
    (halerts : cfg.enableAlerts = true)
    (hsup : usageInfo.type = UsageType.usageBased ∧
        jsTruthy usageInfo.premiumPercentage = true ∧
        usageInfo.premiumPercentage.getD 0 < 100) :
    checkAndNotifyUsage cfg ext usageInfo st =
      ⟨{ st with isNotificationInProgress := false }, none, false⟩ := by
  unfold checkAndNotifyUsage
  dsimp only
  rw [if_neg (by simp [hbusy]), if_neg (by simp [halerts]), if_pos hsup]

/-- A busy call to the usage check returns immediately and unchanged. -/
theorem checkAndNotifyUsage_busy (cfg : Config) (ext : UsageExternals)
    (usageInfo : UsageInfo) (st : NotifState)
    (hbusy : st.isNotificationInProgress = true) :
    checkAndNotifyUsage cfg ext usageInfo st = ⟨st, none, false⟩ := by
  unfold checkAndNotifyUsage
  rw [if_pos hbusy]

/-- A busy call to the spending check returns immediately and
unchanged. -/
theorem checkAndNotifySpending_busy (cfg : Config) (ext : SpendingExternals)
    (totalSpent : ℚ) (st : NotifState)
    (hbusy : st.isNotificationInProgress = true) :
    checkAndNotifySpending cfg ext totalSpent st = ⟨st, none, false⟩ := by
  unfold checkAndNotifySpending
  rw [if_pos hbusy]

/-- A non-busy call to the usage check always ends with the flag
lowered, on every oracle, including the throwing ones. -/
theorem checkAndNotifyUsage_flag (cfg : Config) (ext : UsageExternals)
    (usageInfo : UsageInfo) (st : NotifState)
    (hbusy : st.isNotificationInProgress = false) :
    (checkAndNotifyUsage cfg ext usageInfo st).state.isNotificationInProgress = false := by
  by_cases halerts : cfg.enableAlerts = true
  · by_cases hsup : usageInfo.type = UsageType.usageBased ∧
        jsTruthy usageInfo.premiumPercentage = true ∧
        usageInfo.premiumPercentage.getD 0 < 100
    · rw [checkAndNotifyUsage_suppressed_eq cfg ext usageInfo st hbusy halerts hsup]
    · rw [checkAndNotifyUsage_eq_body cfg ext usageInfo st hbusy halerts hsup]
      cases hfind : (sortDesc cfg.usageAlertThresholds).find?
          (fun t => usageInfo.percentage ≥ t) with
      | none =>
        exact setRelevant_flag st usageInfo.type _
      | some h =>
        dsimp only
        split_ifs with hmem
        · exact setRelevant_flag st usageInfo.type _
        · cases hsw : ext.showWarningMessage with
          | error e => rfl
          | ok c =>
            dsimp only
            split_ifs with hthr
            · rfl
            · exact setRelevant_flag st usageInfo.type _
  · unfold checkAndNotifyUsage
    rw [if_neg (by simp [hbusy]), if_pos (by simp [halerts])]
    exact hbusy

/-- A non-busy call to the spending check always ends with the flag
lowered, on every oracle, including the throwing ones. -/
theorem checkAndNotifySpending_flag (cfg : Config) (ext : SpendingExternals)
    (totalSpent : ℚ) (st : NotifState)
    (hbusy : st.isNotificationInProgress = false) :
    (checkAndNotifySpending cfg ext totalSpent st).state.isNotificationInProgress = false := by
  unfold checkAndNotifySpending
  rw [if_neg (by simp [hbusy])]
  dsimp only
  split_ifs
  · exact hbusy
  · rcases ext.convertTotalSpent with e | u
    · rfl
    · rcases ext.convertNextThreshold with e2 | u2
      · rfl
      · dsimp only
        rcases ext.showInformationMessage with e3 | c
        · rfl
        · dsimp only
          split_ifs
          · rcases ext.executeSetLimit with e4 | u4
            · rfl
            · rfl
          · rfl
  · rfl

/-- After a guarded, non-throwing usage check, every threshold left in
the notified set of the checked axis lies at or below the current
percentage: the clearing loop removed all others. -/
theorem checkAndNotifyUsage_cleared (cfg : Config) (ext : UsageExternals)
    (usageInfo : UsageInfo) (st : NotifState)
    (hbusy : st.isNotificationInProgress = false)
    (halerts : cfg.enableAlerts = true)
    (hsup : ¬ (usageInfo.type = UsageType.usageBased ∧
        jsTruthy usageInfo.premiumPercentage = true ∧
        usageInfo.premiumPercentage.getD 0 < 100))
    (hthrew : (checkAndNotifyUsage cfg ext usageInfo st).threw = false) :
    ∀ t ∈ (checkAndNotifyUsage cfg ext usageInfo st).state.relevant usageInfo.type,
      t ≤ usageInfo.percentage := by
  intro t ht
  rw [checkAndNotifyUsage_eq_body cfg ext usageInfo st hbusy halerts hsup] at ht hthrew
  cases hfind : (sortDesc cfg.usageAlertThresholds).find?
      (fun t => usageInfo.percentage ≥ t) with
  | none =>
    rw [hfind] at ht
    dsimp only at ht
    rw [relevant_setRelevant] at ht
    exact (Finset.mem_filter.mp ht).2
  | some h =>
    rw [hfind] at ht hthrew
    dsimp only at ht hthrew
    by_cases hmem : h ∈ st.relevant usageInfo.type
    · rw [if_neg (by simp [hmem])] at ht
      rw [relevant_setRelevant] at ht
      exact (Finset.mem_filter.mp ht).2
    · rw [if_pos hmem] at ht hthrew
      cases hsw : ext.showWarningMessage with
      | error e =>
        rw [hsw] at hthrew
        simp at hthrew
      | ok c =>
        rw [hsw] at ht hthrew
        dsimp only at ht hthrew
        split_ifs at ht hthrew with hthr
        dsimp only at ht
        rw [relevant_setRelevant] at ht
        exact (Finset.mem_filter.mp ht).2

/-- Presenting the same usage input twice in a row never fires twice:
after a guarded check that did not throw, an immediate repeat with the
same input fires nothing. -/
theorem checkAndNotifyUsage_no_refire (cfg : Config) (ext : UsageExternals)
    (usageInfo : UsageInfo) (st : NotifState)
    (hbusy : st.isNotificationInProgress = false)
    (halerts : cfg.enableAlerts = true)
    (hthrew : (checkAndNotifyUsage cfg ext usageInfo st).threw = false) :
    (checkAndNotifyUsage cfg ext usageInfo
        (checkAndNotifyUsage cfg ext usageInfo st).state).fired = none := by
  have hflag := checkAndNotifyUsage_flag cfg ext usageInfo st hbusy
  by_cases hsup : usageInfo.type = UsageType.usageBased ∧
      jsTruthy usageInfo.premiumPercentage = true ∧
      usageInfo.premiumPercentage.getD 0 < 100
  · rw [checkAndNotifyUsage_suppressed_eq cfg ext usageInfo _ hflag halerts hsup]
  · rw [checkAndNotifyUsage_eq_body cfg ext usageInfo _ hflag halerts hsup]
    cases hfind : (sortDesc cfg.usageAlertThresholds).find?
        (fun t => usageInfo.percentage ≥ t) with
    | none => rfl
    | some h =>
      have hP : usageInfo.percentage ≥ h := by
        have hPb := List.find?_some hfind
        simpa using hPb
      have hmemthr : h ∈ sortDesc cfg.usageAlertThresholds := List.mem_of_find?_eq_some hfind
      have hmem1 : h ∈ (checkAndNotifyUsage cfg ext usageInfo st).state.relevant
          usageInfo.type := by
        rw [checkAndNotifyUsage_eq_body cfg ext usageInfo st hbusy halerts hsup] at hthrew ⊢
        rw [hfind] at hthrew ⊢
        dsimp only at hthrew ⊢
        by_cases hmem : h ∈ st.relevant usageInfo.type
        · rw [if_neg (by simp [hmem])]
          rw [relevant_setRelevant]
          exact Finset.mem_filter.mpr ⟨hmem, hP⟩
        · rw [if_pos hmem] at hthrew ⊢
          cases hsw : ext.showWarningMessage with
          | error e =>
            rw [hsw] at hthrew
            simp at hthrew
          | ok c =>
            rw [hsw] at hthrew
            dsimp only at hthrew ⊢
            split_ifs at hthrew ⊢ with hthr
            dsimp only
            rw [relevant_setRelevant]
            refine Finset.mem_filter.mpr ⟨?_, hP⟩
            exact Finset.mem_union_right _
              (List.mem_toFinset.mpr (List.mem_filter.mpr ⟨hmemthr, by simp⟩))
      dsimp only
      rw [if_neg (by simp [hmem1])]

/-- The second pass accumulates exactly the absolute mid-month amounts
on top of the incoming running total. -/
theorem foldl_processItem_midMonthPayment (ev : Option (List UsageEvent)) (w : ℕ)
    (items : List InvoiceItem) : ∀ acc : List UsageItem × ℚ,
    (items.foldl (processItem ev w) acc).2 = acc.2 + (midMonthAmounts items).sum := by
  induction items with
  | nil => intro acc; simp [midMonthAmounts]
  | cons item rest ih =>
    intro acc
    rw [List.foldl_cons, ih]
    rcases hc : item.cents with _ | c
    · simp [processItem, hc, midMonthAmounts, List.filterMap_cons]
    · by_cases hm : strContains item.description "Mid-month usage paid" = true
      · simp only [processItem, hc, hm, if_pos, midMonthAmounts, List.filterMap_cons,
          List.sum_cons]
        ring
      · by_cases hf : strContains item.description "extra fast premium requests" = true
        · simp [processItem, hc, hm, hf, midMonthAmounts, List.filterMap_cons]
        · simp [processItem, hc, hm, hf, midMonthAmounts, List.filterMap_cons]

/-- The lines carrying the mid-month marker in their description are
exactly one synthetic line per costed mid-month item, whose label shows
the running cumulative total. -/
theorem foldl_processItem_midMonthLines (ev : Option (List UsageEvent)) (w : ℕ)
    (items : List InvoiceItem) : ∀ acc : List UsageItem × ℚ,
    ((items.foldl (processItem ev w) acc).1.filter isMidMonthLine).map
        (fun u => u.calculation) =
      (acc.1.filter isMidMonthLine).map (fun u => u.calculation) ++
        (runningTotals acc.2 (midMonthAmounts items)).map
          (fun s => "Mid-month payment: $" ++ toFixed2 s) := by
  induction items with
  | nil => intro acc; simp [midMonthAmounts, runningTotals]
  | cons item rest ih =>
    intro acc
    rw [List.foldl_cons, ih]
    rcases hc : item.cents with _ | c
    · simp [processItem, hc, midMonthAmounts, List.filterMap_cons]
    · by_cases hm : strContains item.description "Mid-month usage paid" = true
      · simp [processItem, hc, hm, midMonthAmounts, runningTotals, isMidMonthLine,
          List.filterMap_cons, List.filter_append, List.map_append]
      · by_cases hf : strContains item.description "extra fast premium requests" = true
        · simp [processItem, hc, hm, hf, midMonthAmounts, isMidMonthLine,
            List.filterMap_cons, List.filter_append]
        · simp [processItem, hc, hm, hf, midMonthAmounts, isMidMonthLine,
            List.filterMap_cons, List.filter_append]

/-- The first-pass fold over all items computes the maximum of the
counts found among the costed non-mid-month items. -/
theorem maxRequestCount_aux (items : List InvoiceItem) : ∀ a : ℕ,
    items.foldl (fun acc item =>
      if item.cents.isNone then acc
      else if strContains item.description "Mid-month usage paid" then acc
      else
        match parseLeadingNat item.description with
        | some n => max acc n
        | none => acc) a = max a ((emittedRequestCounts items).foldr max 0) := by
  induction items with
  | nil => intro a; simp [emittedRequestCounts]
  | cons item rest ih =>
    intro a
    rw [List.foldl_cons, ih]
    rcases hc : item.cents with _ | c
    · simp [emittedRequestCounts, List.filterMap_cons, hc]
    · by_cases hm : strContains item.description "Mid-month usage paid" = true
      · simp [emittedRequestCounts, List.filterMap_cons, hc, hm]
      · rcases hp : parseLeadingNat item.description with _ | n
        · simp [emittedRequestCounts, List.filterMap_cons, hc, hm, hp]
        · simp [emittedRequestCounts, List.filterMap_cons, hc, hm, hp, Nat.max_assoc]

/-- The first pass equals the maximum of the emitted request counts. -/
theorem maxRequestCount_eq (items : List InvoiceItem) :
    maxRequestCount items = (emittedRequestCounts items).foldr max 0 := by
  unfold maxRequestCount
  rw [maxRequestCount_aux items 0]
  exact Nat.zero_max _

/-- C6 (amended): mid-month payment items are never emitted as
ordinary calculation lines: the emitted lines carrying a mid-month
description are exactly one synthetic summary line per costed mid-month
item, each labelled with the cumulative running total, while their
absolute amounts accumulate into midMonthPayment; and the tooltip
reports the unpaid amount as exactly totalCost minus the mid-month
total, not clamped at zero. -/
theorem c6_midmonth_accumulation (payload : MonthPayload) (items : List InvoiceItem)
    (hitems : payload.items = some items) (t m : ℚ) :
    (fetchMonthData payload).midMonthPayment = (midMonthAmounts items).sum ∧
    ((fetchMonthData payload).items.filter isMidMonthLine).map (fun u => u.calculation) =
      (runningTotals 0 (midMonthAmounts items)).map
        (fun s => "Mid-month payment: $" ++ toFixed2 s) ∧
    tooltipUnpaidAmount t m = t - m := by
  refine ⟨?_, ?_, rfl⟩
  · unfold fetchMonthData
    rw [hitems]
    dsimp only
    rw [foldl_processItem_midMonthPayment]
    simp
  · unfold fetchMonthData
    rw [hitems]
    dsimp only
    rw [foldl_processItem_midMonthLines]
    simp

/-- Witness for the amended C6 at the two-item payload together with
the 120 minus 40 unpaid-amount example of the spec. -/
theorem c6_midmonth_accumulation_witness :
    (fetchMonthData c6Payload).midMonthPayment =
      (midMonthAmounts [⟨"Mid-month usage paid: first", some (-3000)⟩,
        ⟨"Mid-month usage paid: second", some (-1000)⟩]).sum ∧
    tooltipUnpaidAmount 120 40 = 120 - 40 :=
  ⟨(c6_midmonth_accumulation c6Payload _ rfl 120 40).1,
   (c6_midmonth_accumulation c6Payload _ rfl 120 40).2.2⟩

/-- C8: the aggregation is deterministic: identical payloads, with the
same items in the same order and the same usage events, produce
identical MonthData values, emitted item sequences, formatted strings
and mid-month totals; the embedding consults nothing but its
argument. -/
theorem c8_fetchMonthData_deterministic (p q : MonthPayload) (hpq : p = q) :
    fetchMonthData p = fetchMonthData q ∧
    (fetchMonthData p).items = (fetchMonthData q).items ∧
    (fetchMonthData p).midMonthPayment = (fetchMonthData q).midMonthPayment := by
  subst hpq
  exact ⟨rfl, rfl, rfl⟩

/-- Witness for C8 at a concrete payload. -/
theorem c8_fetchMonthData_deterministic_witness :
    fetchMonthData c8Payload = fetchMonthData c8Payload :=
  (c8_fetchMonthData_deterministic c8Payload c8Payload rfl).1

/-! Claim theorems.  The concrete evaluations below let the kernel
compute with rational arithmetic, so the Batteries arithmetic
definitions are made unfoldable for this part of the file. -/

section
attribute [local semireducible] Rat.mul Rat.add Rat.sub Rat.inv

/-- C1: the claim that a usage-based check with premium percentage
below 100 never fires fails on the code.  At premiumPercentage = 0 the
JS truthiness guard premiumPercentage && premiumPercentage < 100 is
falsy, the suppression is skipped, and a usage-based check at
percentage 100 fires and records every default threshold, contradicting
the suppression rule stated by the spec and by the log message of the
source. -/
theorem c1_usage_based_suppression_truthiness_bug :
    (checkAndNotifyUsage defaultConfig okUsageExternals
        ⟨100, UsageType.usageBased, some 100, some 0⟩ initialState).fired = some 100 ∧
    (checkAndNotifyUsage defaultConfig okUsageExternals
        ⟨100, UsageType.usageBased, some 100, some 0⟩
        initialState).state.notifiedUsageBasedThresholds = {10, 30, 50, 75, 90, 100} := by
  decide

/-- C2: over any non-decreasing spend sequence with a positive step, a
spending notification fires only at the boundary (floor(T/S)+1)*S when
that multiple is not yet notified, each multiple is notified at most
once, fired multiples are strictly increasing, and no multiple below a
fired one is missing from the fired list.  In this exact-arithmetic
embedding the fired list is in fact always empty, so every clause
holds. -/
theorem c2_spending_monotone_coverage (cfg : Config) (ext : SpendingExternals)
    (st : NotifState) (spends : List ℚ)
    (_hS : 0 < cfg.spendingAlertThreshold) (_hmono : spends.Chain' (· ≤ ·)) :
    (∀ (t : ℚ) (s : NotifState) (m : ℤ),
        (checkAndNotifySpending cfg ext t s).fired = some m →
          t ≥ ((m : ℤ) : ℚ) * cfg.spendingAlertThreshold ∧
          m = Rat.floor (t / cfg.spendingAlertThreshold) + 1 ∧
          m ∉ s.notifiedSpendingThresholds) ∧
    (∀ m : ℤ, (runSpending cfg ext spends st).2.count m ≤ 1) ∧
    (runSpending cfg ext spends st).2.Chain' (· < ·) ∧
    (∀ m mLater : ℤ, mLater ∈ (runSpending cfg ext spends st).2 → 1 ≤ m → m < mLater →
        m ∈ (runSpending cfg ext spends st).2) := by
  refine ⟨?_, ?_, ?_, ?_⟩
  · intro t s m hm
    rw [(checkAndNotifySpending_no_fire cfg ext t s).1] at hm
    exact absurd hm (by simp)
  · intro m
    rw [runSpending_fired_nil]
    simp
  · rw [runSpending_fired_nil]
    simp
  · intro m mLater hmem
    rw [runSpending_fired_nil] at hmem
    simp at hmem

/-- Witness for C2 at the concrete non-decreasing sequence 1, 2 with
the default step 1. -/
theorem c2_spending_monotone_coverage_witness :
    0 < defaultConfig.spendingAlertThreshold ∧
    List.Chain' (· ≤ ·) [(1 : ℚ), 2] ∧
    (∀ m : ℤ,
      (runSpending defaultConfig okSpendingExternals [(1 : ℚ), 2] initialState).2.count m ≤ 1) :=
  ⟨by decide, by norm_num [List.chain'_cons],
    (c2_spending_monotone_coverage defaultConfig okSpendingExternals initialState
      [(1 : ℚ), 2] (by decide) (by norm_num [List.chain'_cons])).2.1⟩

/-- C3: in exact rational arithmetic the branch condition
totalSpent ≥ (floor(totalSpent/S)+1)*S of the spending check is false
for every nonnegative spend and positive step, so the notification
branch is unreachable: the call fires nothing and leaves the notified
spending set untouched. -/
theorem c3_spending_notification_unreachable (cfg : Config) (ext : SpendingExternals)
    (totalSpent : ℚ) (st : NotifState)
    (_hT : 0 ≤ totalSpent) (hS : 0 < cfg.spendingAlertThreshold) :
    ¬ (totalSpent ≥
        (((Rat.floor (totalSpent / cfg.spendingAlertThreshold) : ℤ) : ℚ) + 1) *
          cfg.spendingAlertThreshold) ∧
    (checkAndNotifySpending cfg ext totalSpent st).fired = none ∧
    (checkAndNotifySpending cfg ext totalSpent st).state.notifiedSpendingThresholds =
      st.notifiedSpendingThresholds :=
  ⟨not_le.mpr (lt_next_boundary totalSpent cfg.spendingAlertThreshold hS),
    (checkAndNotifySpending_no_fire cfg ext totalSpent st).1,
    (checkAndNotifySpending_no_fire cfg ext totalSpent st).2⟩

/-- Witness for C3 at spend 5 and the default step 1. -/
theorem c3_spending_notification_unreachable_witness :
    (0 : ℚ) ≤ 5 ∧ 0 < defaultConfig.spendingAlertThreshold ∧
    (checkAndNotifySpending defaultConfig okSpendingExternals 5 initialState).fired = none :=
  ⟨by decide, by decide,
    (c3_spending_notification_unreachable defaultConfig okSpendingExternals 5 initialState
      (by decide) (by decide)).2.1⟩

/-- C4: with the default thresholds and empty notified set, checking
5 percent and then 82 percent fires exactly one notification (at the 82
percent check, for threshold 75), after which exactly 10, 30, 50 and 75
are marked notified while 90 and 100 are not. -/
theorem c4_jump_from_5_to_82 :
    (checkAndNotifyUsage defaultConfig okUsageExternals
        ⟨5, UsageType.premium, none, none⟩ initialState).fired = none ∧
    (checkAndNotifyUsage defaultConfig okUsageExternals ⟨82, UsageType.premium, none, none⟩
        (checkAndNotifyUsage defaultConfig okUsageExternals
          ⟨5, UsageType.premium, none, none⟩ initialState).state).fired = some 75 ∧
    (checkAndNotifyUsage defaultConfig okUsageExternals ⟨82, UsageType.premium, none, none⟩
        (checkAndNotifyUsage defaultConfig okUsageExternals
          ⟨5, UsageType.premium, none, none⟩ initialState).state).state.notifiedPremiumThresholds =
      {10, 30, 50, 75} := by
  decide

/-- C6 counterexample: one aggregation pass over a payload with two
mid-month payment items surfaces two synthetic mid-month summary lines,
not exactly one. -/
theorem c6_two_midmonth_lines_counterexample :
    ((fetchMonthData c6Payload).items.filter isMidMonthLine).map (fun u => u.calculation) =
      ["Mid-month payment: $30.00", "Mid-month payment: $40.00"] ∧
    ((fetchMonthData c6Payload).items.filter isMidMonthLine).length ≠ 1 := by decide

/-- C7: the zero-padding width equals the decimal digit count of the
maximum leading-integer request count found among the costed
non-mid-month items, and the counts 7, 42, 630 render as 007, 042 and
630, width 3. -/
theorem c7_padding_width_digits (items : List InvoiceItem) :
    paddingWidth items = (Nat.repr ((emittedRequestCounts items).foldr max 0)).length ∧
    (fetchMonthData c7Payload).items.map (fun u => u.calculation) =
      ["007*$1.00 (Fast Requests)", "042*$1.00 (Fast Requests)",
       "630*$1.00 (Fast Requests)"] :=
  ⟨by unfold paddingWidth; rw [maxRequestCount_eq], by decide⟩

/-- C5: after the fire decision of a guarded, non-throwing usage check,
every notified threshold of the checked axis strictly above the current
percentage has been removed; the concrete premium scenario 95, 60, 96
marks 90, clears it on the drop to 60 and re-fires exactly it once more
at 96; and presenting the same input twice in a row never fires
twice. -/
theorem c5_hysteresis_clear_and_refire (cfg : Config) (ext : UsageExternals)
    (usageInfo : UsageInfo) (st : NotifState)
    (hbusy : st.isNotificationInProgress = false)
    (halerts : cfg.enableAlerts = true)
    (hsup : ¬ (usageInfo.type = UsageType.usageBased ∧
        jsTruthy usageInfo.premiumPercentage = true ∧
        usageInfo.premiumPercentage.getD 0 < 100))
    (hthrew : (checkAndNotifyUsage cfg ext usageInfo st).threw = false) :
    (∀ t ∈ (checkAndNotifyUsage cfg ext usageInfo st).state.relevant usageInfo.type,
        t ≤ usageInfo.percentage) ∧
    ((checkAndNotifyUsage defaultConfig okUsageExternals (premiumInfo 95)
        initialState).fired = some 90 ∧
      (90 : ℚ) ∈ (checkAndNotifyUsage defaultConfig okUsageExternals (premiumInfo 95)
        initialState).state.notifiedPremiumThresholds ∧
      (checkAndNotifyUsage defaultConfig okUsageExternals (premiumInfo 60)
        (checkAndNotifyUsage defaultConfig okUsageExternals (premiumInfo 95)
          initialState).state).fired = none ∧
      (90 : ℚ) ∉ (checkAndNotifyUsage defaultConfig okUsageExternals (premiumInfo 60)
        (checkAndNotifyUsage defaultConfig okUsageExternals (premiumInfo 95)
          initialState).state).state.notifiedPremiumThresholds ∧
      (checkAndNotifyUsage defaultConfig okUsageExternals (premiumInfo 96)
        (checkAndNotifyUsage defaultConfig okUsageExternals (premiumInfo 60)
          (checkAndNotifyUsage defaultConfig okUsageExternals (premiumInfo 95)
            initialState).state).state).fired = some 90) ∧
    (checkAndNotifyUsage cfg ext usageInfo
        (checkAndNotifyUsage cfg ext usageInfo st).state).fired = none :=
  ⟨checkAndNotifyUsage_cleared cfg ext usageInfo st hbusy halerts hsup hthrew,
   by decide,
   checkAndNotifyUsage_no_refire cfg ext usageInfo st hbusy halerts hthrew⟩

/-- Witness for C5 at the premium input 82 from a fresh state: the
repeated identical check does not fire again. -/
theorem c5_hysteresis_clear_and_refire_witness :
    initialState.isNotificationInProgress = false ∧
    defaultConfig.enableAlerts = true ∧
    (checkAndNotifyUsage defaultConfig okUsageExternals (premiumInfo 82)
        (checkAndNotifyUsage defaultConfig okUsageExternals (premiumInfo 82)
          initialState).state).fired = none :=
  ⟨rfl, rfl,
    (c5_hysteresis_clear_and_refire defaultConfig okUsageExternals (premiumInfo 82)
      initialState rfl rfl (by decide) (by decide)).2.2⟩

/-- C9: the current billing period is the calendar month unless the day
of month is strictly before the boundary day 3, in which case it is the
calendar month minus one with January wrapping to December of the
previous year; the previous period is exactly one month before the
current one in linear month count, staying inside 1..12. -/
theorem c9_billing_periods (day month year : ℤ) (h1 : 1 ≤ month) (h2 : month ≤ 12) :
    (usageBasedBillingDay ≤ day →
      (computeBillingPeriods day month year).currentMonth = month ∧
      (computeBillingPeriods day month year).currentYear = year) ∧
    (day < usageBasedBillingDay →
      (month = 1 →
        (computeBillingPeriods day month year).currentMonth = 12 ∧
        (computeBillingPeriods day month year).currentYear = year - 1) ∧
      (month ≠ 1 →
        (computeBillingPeriods day month year).currentMonth = month - 1 ∧
        (computeBillingPeriods day month year).currentYear = year)) ∧
    (12 * (computeBillingPeriods day month year).lastYear +
        (computeBillingPeriods day month year).lastMonth =
      12 * (computeBillingPeriods day month year).currentYear +
        (computeBillingPeriods day month year).currentMonth - 1) ∧
    1 ≤ (computeBillingPeriods day month year).lastMonth ∧
    (computeBillingPeriods day month year).lastMonth ≤ 12 := by
  unfold computeBillingPeriods usageBasedBillingDay
  dsimp only
  split_ifs <;> simp_all <;> omega

/-- Witness for C9 on 1 January 2026: the current billing period is
December 2025. -/
theorem c9_billing_periods_witness :
    (computeBillingPeriods 1 1 2026).currentMonth = 12 ∧
    (computeBillingPeriods 1 1 2026).currentYear = 2025 :=
  ((c9_billing_periods 1 1 2026 (by decide) (by decide)).2.1 (by decide)).1 rfl

/-- C10: a call to either notification check arriving while the
re-entrancy flag is raised returns immediately, firing nothing and
changing nothing; and any call arriving with the flag lowered returns
with the flag lowered again, on every oracle, including the ones in
which the body throws. -/
theorem c10_reentrancy_guard_and_flag_reset (cfg : Config) (sext : SpendingExternals)
    (uext : UsageExternals) (totalSpent : ℚ) (usageInfo : UsageInfo) (st : NotifState) :
    (st.isNotificationInProgress = true →
      checkAndNotifySpending cfg sext totalSpent st = ⟨st, none, false⟩ ∧
      checkAndNotifyUsage cfg uext usageInfo st = ⟨st, none, false⟩) ∧
    (st.isNotificationInProgress = false →
      (checkAndNotifySpending cfg sext totalSpent st).state.isNotificationInProgress = false ∧
      (checkAndNotifyUsage cfg uext usageInfo st).state.isNotificationInProgress = false) :=
  ⟨fun h => ⟨checkAndNotifySpending_busy cfg sext totalSpent st h,
      checkAndNotifyUsage_busy cfg uext usageInfo st h⟩,
   fun h => ⟨checkAndNotifySpending_flag cfg sext totalSpent st h,
      checkAndNotifyUsage_flag cfg uext usageInfo st h⟩⟩

/-- Witness for C10: a busy spending call with throwing externals is a
no-op, and a non-busy usage call whose dialog throws still ends with
the flag lowered. -/
theorem c10_reentrancy_witness :
    checkAndNotifySpending defaultConfig throwingSpendingExternals 5 busyState =
      ⟨busyState, none, false⟩ ∧
    (checkAndNotifyUsage defaultConfig throwingUsageExternals
        ⟨82, UsageType.premium, none, none⟩ initialState).state.isNotificationInProgress =
      false :=
  ⟨((c10_reentrancy_guard_and_flag_reset defaultConfig throwingSpendingExternals
      throwingUsageExternals 5 ⟨82, UsageType.premium, none, none⟩ busyState).1 rfl).1,
   ((c10_reentrancy_guard_and_flag_reset defaultConfig throwingSpendingExternals
      throwingUsageExternals 5 ⟨82, UsageType.premium, none, none⟩ initialState).2 rfl).2⟩

end

end CursorStats
